import Mathlib

/-!
Shallow embedding of `server.py`, a Flask application exposing image-captioning
and text-generation endpoints over a registry of pre-trained models with
lazy-loading caches.  Pure data (the registries) and the control flow of the
handlers are translated directly; the external ML backends (processor,
model.generate, pipeline, tokenizer) are opaque and are modelled as explicit
environment parameters recording the raw strings they would return.
-/

set_option autoImplicit false

namespace Server

/-- Lookup in a Python dict modelled as an insertion-ordered association list
(`d.get(k)` / `k in d`). -/
def dictGet {α : Type} (k : String) : List (String × α) → Option α
  | [] => none
  | (k', v) :: es => if k' = k then some v else dictGet k es

/-- Assignment `d[k] = v` on a Python dict: replaces the value in place when
the key is present (keeping insertion order), appends otherwise. -/
def dictSet {α : Type} (k : String) (v : α) : List (String × α) → List (String × α)
  | [] => [(k, v)]
  | (k', v') :: es => if k' = k then (k, v) :: es else (k', v') :: dictSet k v es

/-- Python `s.startswith(pre)`, computed on the character lists underlying the
strings (the byte-position-based `String.startsWith` of the standard library is
defined by well-founded recursion and does not evaluate inside the kernel). -/
def pyStartsWith (s pre : String) : Bool :=
  pre.data.isPrefixOf s.data

/-- Python `s[n:]` with `n` a character count (`len` of the stripped prefix). -/
def pyDrop (s : String) (n : Nat) : String :=
  ⟨s.data.drop n⟩

/-- Python `s.strip()`: remove leading and trailing whitespace. -/
def pyStrip (s : String) : String :=
  ⟨((s.data.dropWhile Char.isWhitespace).reverse.dropWhile Char.isWhitespace).reverse⟩

/-- One entry of the `MODELS` image-model registry (`server.py` lines 36-78).
Optional keys of the Python dict become `Option` fields. -/
structure ModelInfo where
  name : String
  model : String
  description : String
  type : Option String
  revision : Option String
  default_mode : Option String
  modes : Option (List (String × String))
deriving DecidableEq

/-- The `MODELS` registry, in insertion order (`server.py` lines 36-78). -/
def MODELS : List (String × ModelInfo) :=
  [ ("blip-base",
      ⟨"BLIP Base", "Salesforce/blip-image-captioning-base",
       "Fast and lightweight (500MB)", none, none, none, none⟩),
    ("blip-large",
      ⟨"BLIP Large", "Salesforce/blip-image-captioning-large",
       "More detailed captions (2GB)", none, none, none, none⟩),
    ("vit-gpt2",
      ⟨"ViT-GPT2", "nlpconnect/vit-gpt2-image-captioning",
       "Alternative model (500MB)", none, none, none, none⟩),
    ("florence-2",
      ⟨"Florence-2 Base", "microsoft/Florence-2-base",
       "High-quality captions (custom loader, ~1.5GB)", some "florence", none,
       some "more_detailed",
       some [("caption", "<CAPTION>"), ("more_detailed", "<MORE_DETAILED_CAPTION>"),
             ("ocr", "<OCR>"), ("dense", "<DENSE_CAPTION>"), ("od", "<OD>")]⟩),
    ("moondream-2",
      ⟨"Moondream2", "vikhyatk/moondream2",
       "Lightweight VLM (fast CPU, ~1-2GB RAM)", some "moondream", some "2025-06-21",
       some "caption",
       some [("caption", "caption"), ("roast", "roast")]⟩) ]

/-- One entry of the `LLM_MODELS` text-model registry (`server.py` lines 81-108). -/
structure LLMInfo where
  name : String
  model : String
  description : String
  pad_token_id : Option Nat
deriving DecidableEq

/-- The `LLM_MODELS` registry, in insertion order (`server.py` lines 81-108). -/
def LLM_MODELS : List (String × LLMInfo) :=
  [ ("smollm2-1.7b",
      ⟨"SmolLM2 1.7B Instruct", "HuggingFaceTB/SmolLM2-1.7B-Instruct",
       "Tiny instruct model (fast CPU, ~1.5GB RAM)", some 128000⟩),
    ("phi3-mini",
      ⟨"Phi-3 Mini 4k", "microsoft/Phi-3-mini-4k-instruct",
       "Reasoning-focused small model (~3GB RAM)", none⟩),
    ("gemma2-2b",
      ⟨"Gemma-2 2B IT", "google/gemma-2-2b-it",
       "Creative text, ~2GB RAM", none⟩),
    ("qwen2.5-1.5b",
      ⟨"Qwen2.5 1.5B Instruct", "Qwen/Qwen2.5-1.5B-Instruct",
       "Multilingual ultra-light (~1GB RAM)", none⟩),
    ("tinyllama-1.1b",
      ⟨"TinyLlama 1.1B Chat", "TinyLlama/TinyLlama-1.1B-Chat-v1.0",
       "Very fast, basic chat (~1GB RAM)", none⟩) ]

/-- The table `FLORENCE_TAGS = MODELS["florence-2"].get("modes", \x7b\x7d)` (`server.py` line 111). -/
def FLORENCE_TAGS : List (String × String) :=
  match dictGet "florence-2" MODELS with
  | some info => info.modes.getD []
  | none => []

/-- The body of `florence_prompt_for_mode` (`server.py` line 117), generalized over
the mode table and default mode it reads:
`tags.get(mode, tags.get(default_mode, "<MORE_DETAILED_CAPTION>"))`,
where `mode` may be Python `None` (never a key of the dict). -/
def florence_prompt_core (tags : List (String × String)) (default_mode : String)
    (mode : Option String) : String :=
  ((mode.bind (fun m => dictGet m tags)).getD
    ((dictGet default_mode tags).getD "<MORE_DETAILED_CAPTION>"))

/-- The function `florence_prompt_for_mode` (`server.py` lines 114-117). -/
def florence_prompt_for_mode (mode : Option String) : String :=
  let default_mode := ((dictGet "florence-2" MODELS).bind ModelInfo.default_mode).getD "more_detailed"
  florence_prompt_core FLORENCE_TAGS default_mode mode

/-- The backend type tag stored by `get_model` (`server.py` lines 141-170):
`"florence"` / `"moondream"` when `info.get("type")` equals those strings,
`"pipeline"` otherwise. -/
def backendType (info : ModelInfo) : String :=
  if info.type = some "florence" then "florence"
  else if info.type = some "moondream" then "moondream"
  else "pipeline"

/-- A cached image-model entry.  The opaque initialized inference objects
(processor, model, pipeline callable) are summarized by a fresh `handleId`:
each backend initialization yields a distinct handle. -/
structure LoadedModel where
  type : String
  handleId : Nat
deriving DecidableEq

/-- A loaded text-generation entry (`server.py` lines 199-202): the opaque pipe
is a fresh `handleId`, plus the resolved `pad_token_id`. -/
structure LoadedLLM where
  handleId : Nat
  pad_token_id : Option Nat
deriving DecidableEq

/-- The mutable state owned by `create_app`: the two caches (`server.py`
lines 129-130), a fresh-handle supply, and counters of backend
initializations performed (the load-count side channel the spec mentions). -/
structure CacheState where
  model_cache : List (String × LoadedModel)
  llm_cache : List (String × LoadedLLM)
  nextId : Nat
  loads : Nat
  llmLoads : Nat
deriving DecidableEq

/-- The state at process start: both caches empty. -/
def initState : CacheState := ⟨[], [], 0, 0, 0⟩

/-- The loader `get_model` (`server.py` lines 132-174).  Faithful to the source: the cache
membership test uses the requested key, while an unregistered key is rebound to
`"blip-base"` before loading, storing and returning. -/
def get_model (model_key : String) (s : CacheState) : LoadedModel × CacheState :=
  match dictGet model_key s.model_cache with
  | some m => (m, s)
  | none =>
    let key := if (dictGet model_key MODELS).isSome then model_key else "blip-base"
    match dictGet key MODELS with
    | some info =>
        let loaded : LoadedModel := ⟨backendType info, s.nextId⟩
        (loaded, { s with model_cache := dictSet key loaded s.model_cache,
                          nextId := s.nextId + 1, loads := s.loads + 1 })
    | none => (⟨"pipeline", s.nextId⟩, s)  -- unreachable: key is always registered

/-- The tokenizer attached to a constructed text-generation pipeline
(`getattr(pipe, "tokenizer", None)`); opaque, supplied by the environment. -/
structure Tokenizer where
  pad_token_id : Option Nat
  eos_token_id : Option Nat
deriving DecidableEq

/-- Python `a or b` on optional integers (`tokenizer.pad_token_id or
tokenizer.eos_token_id`): `None` and `0` are falsy. -/
def pyOrNat (a b : Option Nat) : Option Nat :=
  match a with
  | some n => if n = 0 then b else some n
  | none => b

/-- Pad-token resolution in `get_llm` (`server.py` lines 192-198): prefer the
descriptor's literal `pad_token_id`; else the tokenizer's own pad token id,
else its eos token id.  (The write-back into the tokenizer does not affect the
value cached and returned.) -/
def resolve_pad (info : LLMInfo) (tok : Option Tokenizer) : Option Nat :=
  match tok with
  | none => info.pad_token_id
  | some t =>
    match info.pad_token_id with
    | some p => some p
    | none => pyOrNat t.pad_token_id t.eos_token_id

/-- The loader `get_llm` (`server.py` lines 176-205).  `tokOf` maps a HuggingFace model
string to the tokenizer of the pipeline built for it (opaque external data).
The key is `Option String` because `/generate` may pass a non-string JSON
value as the model key; such a key is never equal to any stored string key and
is never in `LLM_MODELS`, exactly like an unknown string. -/
def get_llm (tokOf : String → Option Tokenizer) (model_key : Option String)
    (s : CacheState) : LoadedLLM × CacheState :=
  match model_key.bind (fun k => dictGet k s.llm_cache) with
  | some m => (m, s)
  | none =>
    let key := match model_key with
      | some k => if (dictGet k LLM_MODELS).isSome then k else "smollm2-1.7b"
      | none => "smollm2-1.7b"
    match dictGet key LLM_MODELS with
    | some info =>
        let loaded : LoadedLLM := ⟨s.nextId, resolve_pad info (tokOf info.model)⟩
        (loaded, { s with llm_cache := dictSet key loaded s.llm_cache,
                          nextId := s.nextId + 1, llmLoads := s.llmLoads + 1 })
    | none => (⟨s.nextId, none⟩, s)  -- unreachable: key is always registered

/-- One image-model entry of the `/models` response (`server.py` lines 221-227). -/
structure ModelEntry where
  key : String
  name : String
  description : String
  modes : Option (List String)
  default_mode : Option String
deriving DecidableEq

/-- One text-model entry of the `/models` response (`server.py` lines 231-235). -/
structure LLMEntry where
  key : String
  name : String
  description : String
deriving DecidableEq

/-- The `/models` handler `list_models` (`server.py` lines 215-239): the
`models` and `llms` arrays of its JSON payload.  A missing (or empty, Python
falsy) mode table serializes as `null`. -/
def list_models : List ModelEntry × List LLMEntry :=
  (MODELS.map (fun p =>
     ⟨p.1, p.2.name, p.2.description,
      (match p.2.modes with
       | some ms => if ms = [] then none else some (ms.map Prod.fst)
       | none => none),
      p.2.default_mode⟩),
   LLM_MODELS.map (fun p => ⟨p.1, p.2.name, p.2.description⟩))

/-- A `/caption` request: the multipart file fields (field name ↦ filename)
and the form fields. -/
structure CaptionRequest where
  files : List (String × String)
  form : List (String × String)
deriving DecidableEq

/-- The result of a moondream inference call: a structured dict or any other
value, carried as its `str(...)` rendering. -/
inductive MDResult
  | dict (entries : List (String × String))
  | raw (s : String)
deriving DecidableEq

/-- Python `result.get(field) if isinstance(result, dict) else str(result)`
(`server.py` lines 295 and 299). -/
def mdExtract (field : String) : MDResult → Option String
  | .dict d => dictGet field d
  | .raw s => some s

/-- A `/caption` JSON response: `{'text': ...}` (the text is `null` when a
structured result lacks the extracted field) or an error with HTTP status. -/
inductive Response
  | ok (text : Option String)
  | err (status : Nat) (msg : String)
deriving DecidableEq

/-- The opaque inference backends reachable from `caption_image`, for the one
image decoded from the uploaded file: the Florence decoded output as a
function of the prompt tag (`server.py` lines 272-280), the moondream `query`
result as a function of the prompt, the moondream `caption` result, and the
generic pipeline's first `generated_text`. -/
structure CaptionEnv where
  florence_decode : String → String
  moondream_query : String → MDResult
  moondream_caption : MDResult
  pipeline_generated : String

/-- Lines 283-284 of `server.py`: remove the task prompt tag from the front of
the decoded output when it is a prefix, then trim surrounding whitespace
(Python `str.strip()`); otherwise leave the decoded output unchanged. -/
def stripTag (prompt caption : String) : String :=
  if pyStartsWith caption prompt then pyStrip (pyDrop caption prompt.length) else caption

/-- The `/caption` handler `caption_image` (`server.py` lines 241-310),
threading the cache state. -/
def caption_image (env : CaptionEnv) (req : CaptionRequest) (s : CacheState) :
    Response × CacheState :=
  match dictGet "image" req.files with
  | none => (Response.err 400 "No image provided", s)
  | some filename =>
    if filename = "" then (Response.err 400 "No image selected", s)
    else
      let model_key := (dictGet "model" req.form).getD "florence-2"
      let question := (dictGet "question" req.form).getD ""
      let mode := dictGet "mode" req.form
      let r := get_model model_key s
      if r.1.type = "florence" then
        let prompt := florence_prompt_for_mode mode
        let questionBlock := if question = "" then "" else "Question: " ++ question ++ "\nAnswer: "
        let caption0 := env.florence_decode prompt
        (Response.ok (some (questionBlock ++ stripTag prompt caption0)), r.2)
      else if r.1.type = "moondream" then
        -- prompt = question.strip() if question else None
        let qp : Option String := if question = "" then none else some (pyStrip question)
        -- mode_to_use = mode or MODELS.get(model_key, {}).get("default_mode", "caption")
        let defMode := ((dictGet model_key MODELS).bind ModelInfo.default_mode).getD "caption"
        let mode_to_use := match mode with
          | some m => if m = "" then defMode else m
          | none => defMode
        if mode_to_use = "roast" then
          -- prompt = prompt or "Roast this image in one short, witty sentence."
          let p := match qp with
            | some t => if t = "" then "Roast this image in one short, witty sentence." else t
            | none => "Roast this image in one short, witty sentence."
          (Response.ok (mdExtract "answer" (env.moondream_query p)), r.2)
        else
          (Response.ok (mdExtract "caption" env.moondream_caption), r.2)
      else
        (Response.ok (some env.pipeline_generated), r.2)

/-- A decoded JSON value of the `/generate` body, as far as the handler
inspects it: a string, a number (JSON numbers carried exactly as rationals),
`null`, or anything else (object/array/bool). -/
inductive JVal
  | jstr (s : String)
  | jnum (q : Rat)
  | jnull
  | jother
deriving DecidableEq

/-- Truncation toward zero, the behavior of Python `int()` on a float. -/
def ratTrunc (q : Rat) : Int :=
  if 0 ≤ q.num then q.num / (q.den : Int) else -((-q.num) / (q.den : Int))

/-- Digit run to a natural number. -/
def digitsVal (l : List Char) : Nat :=
  l.foldl (fun a c => a * 10 + (c.toNat - 48)) 0

/-- A non-empty run of decimal digits, as a natural number. -/
def parseNatDigits (l : List Char) : Option Nat :=
  if l ≠ [] ∧ l.all Char.isDigit then some (digitsVal l) else none

/-- Python `int()` on a string: optional surrounding whitespace, optional
sign, decimal digits; anything else raises (`none`). -/
def pyIntOfString (s : String) : Option Int :=
  match (pyStrip s).data with
  | '-' :: rest => (parseNatDigits rest).map (fun n => -(n : Int))
  | '+' :: rest => (parseNatDigits rest).map (fun n => (n : Int))
  | l => (parseNatDigits l).map (fun n => (n : Int))

/-- Python `int(...)` applied to a JSON-decoded value (`server.py` line 319):
`none` models the raised `ValueError`/`TypeError`. -/
def pyInt : JVal → Option Int
  | .jnum q => some (ratTrunc q)
  | .jstr s => pyIntOfString s
  | .jnull => none
  | .jother => none

/-- Python `float()` on a string, for plain decimal forms (optional sign,
digits, optional fractional part; scientific notation is not used by the
claims and is omitted).  `none` models the raised `ValueError`. -/
def parseDec (s : String) : Option Rat :=
  let t := (pyStrip s).data
  let p : Int × List Char := match t with
    | '-' :: rest => (-1, rest)
    | '+' :: rest => (1, rest)
    | l => (1, l)
  match (p.2.splitOn '.') with
  | [a] =>
      if a ≠ [] ∧ a.all Char.isDigit then some ((p.1 * (digitsVal a : Int) : Int) : Rat)
      else none
  | [a, b] =>
      if (a ≠ [] ∨ b ≠ []) ∧ a.all Char.isDigit ∧ b.all Char.isDigit then
        some (((p.1 * ((digitsVal a * 10 ^ b.length + digitsVal b : Nat) : Int) : Int) : Rat)
              / ((10 ^ b.length : Nat) : Rat))
      else none
  | _ => none

/-- Python `float(...)` applied to a JSON-decoded value (`server.py` line 320). -/
def pyFloat : JVal → Option Rat
  | .jnum q => some q
  | .jstr s => parseDec s
  | .jnull => none
  | .jother => none

/-- A `/generate` JSON response: `{'text': ..., 'model': ...}` (the model field
echoes the raw request value), or an error with HTTP status. -/
inductive GenResponse
  | ok (text : String) (model : JVal)
  | err (status : Nat) (msg : String)
deriving DecidableEq

/-- The opaque externals reachable from `generate_text`: the tokenizer of the
pipeline built for a model string, and the backend's raw `generated_text` as a
function of (prompt, max_new_tokens, temperature, pad_token_id). -/
structure GenEnv where
  tokOf : String → Option Tokenizer
  pipeOut : String → Int → Rat → Option Nat → String

/-- The `/generate` handler `generate_text` (`server.py` lines 312-346).
`body` is the parsed JSON object (`none` when the body is absent or not valid
JSON: `get_json(silent=True)` returns `None`, replaced by `{}`).  A failed
`int()`/`float()` conversion, or a non-string prompt reaching the pipeline,
raises and is caught by the handler's catch-all, yielding a 500 response. -/
def generate_text (env : GenEnv) (body : Option (List (String × JVal)))
    (s : CacheState) : GenResponse × CacheState :=
  let data := body.getD []
  let promptV := (dictGet "prompt" data).getD (JVal.jstr "")
  let modelV := (dictGet "model" data).getD (JVal.jstr "smollm2-1.7b")
  match pyInt ((dictGet "max_new_tokens" data).getD (JVal.jnum 256)) with
  | none => (GenResponse.err 500 "Error generating text", s)
  | some max_new_tokens =>
    match pyFloat ((dictGet "temperature" data).getD (JVal.jnum (7 / 10))) with
    | none => (GenResponse.err 500 "Error generating text", s)
    | some temperature =>
      let keyOpt : Option String := match modelV with | JVal.jstr k => some k | _ => none
      let r := get_llm env.tokOf keyOpt s
      match promptV with
      | JVal.jstr prompt =>
          let generated := env.pipeOut prompt max_new_tokens temperature r.1.pad_token_id
          let text := if pyStartsWith generated prompt then pyDrop generated prompt.length
                      else generated
          (GenResponse.ok text modelV, r.2)
      | _ => (GenResponse.err 500 "Error generating text", r.2)

/-- Request builder for `/caption` theorems: an uploaded file named `fname`
under the `image` field, and optional `model`, `question`, `mode` form fields. -/
def mkCaptionReq (fname : String) (model? question? mode? : Option String) :
    CaptionRequest :=
  { files := [("image", fname)],
    form := (match model? with | some v => [("model", v)] | none => [])
         ++ (match question? with | some v => [("question", v)] | none => [])
         ++ (match mode? with | some v => [("mode", v)] | none => []) }

/-- Every cached image-model entry carries the backend type the registry
assigns to its key (in particular, every cached key is registered).  This
holds for every state reachable from `initState`. -/
def validCache (s : CacheState) : Bool :=
  s.model_cache.all (fun p => (dictGet p.1 MODELS).map backendType == some p.2.type)

/-! ### Association-list lemmas -/

theorem dictGet_mem {α : Type} {k : String} {v : α} :
    ∀ {d : List (String × α)}, dictGet k d = some v → (k, v) ∈ d := by
  intro d
  induction d with
  | nil => intro h; simp [dictGet] at h
  | cons p es ih =>
    intro h
    obtain ⟨k', v'⟩ := p
    by_cases hk : k' = k
    · subst hk
      simp [dictGet] at h
      simp [h]
    · simp [dictGet, hk] at h
      exact List.mem_cons_of_mem _ (ih h)

theorem dictGet_dictSet_self {α : Type} (k : String) (v : α) :
    ∀ (d : List (String × α)), dictGet k (dictSet k v d) = some v := by
  intro d
  induction d with
  | nil => simp [dictGet, dictSet]
  | cons p es ih =>
    obtain ⟨k', v'⟩ := p
    by_cases hk : k' = k
    · subst hk
      simp [dictSet, dictGet]
    · simp [dictSet, dictGet, hk, ih]

theorem dictGet_dictSet_ne {α : Type} {k k2 : String} (hne : k ≠ k2) {v : α} :
    ∀ {d : List (String × α)}, dictGet k (dictSet k2 v d) = dictGet k d := by
  intro d
  induction d with
  | nil => simp [dictSet, dictGet, Ne.symm hne]
  | cons q es ih =>
    obtain ⟨k', v'⟩ := q
    by_cases hq : k' = k2
    · subst hq
      simp [dictSet, dictGet, Ne.symm hne]
    · simp [dictSet, dictGet, hq, ih]

theorem mem_dictSet {α : Type} {p : String × α} {k : String} {v : α} :
    ∀ {d : List (String × α)}, p ∈ dictSet k v d → p ∈ d ∨ p = (k, v) := by
  intro d
  induction d with
  | nil => intro h; simp [dictSet] at h; simp [h]
  | cons q es ih =>
    intro h
    obtain ⟨k', v'⟩ := q
    by_cases hk : k' = k
    · subst hk
      simp [dictSet] at h
      rcases h with h | h
      · right; simp [h]
      · left; exact List.mem_cons_of_mem _ h
    · simp [dictSet, hk] at h
      rcases h with h | h
      · left; simp [h]
      · rcases ih h with h' | h'
        · left; exact List.mem_cons_of_mem _ h'
        · right; exact h'

theorem keys_dictSet {α : Type} (k : String) (v : α) :
    ∀ (d : List (String × α)), (dictSet k v d).map Prod.fst = d.map Prod.fst
      ∨ (dictSet k v d).map Prod.fst = d.map Prod.fst ++ [k] := by
  intro d
  induction d with
  | nil => right; simp [dictSet]
  | cons q es ih =>
    obtain ⟨k', v'⟩ := q
    by_cases hk : k' = k
    · subst hk; left; simp [dictSet]
    · rcases ih with h | h
      · left; simp [dictSet, hk, h]
      · right; simp [dictSet, hk, h]

theorem nodup_keys_dictSet {α : Type} {k : String} {v : α} {d : List (String × α)}
    (hd : (d.map Prod.fst).Nodup) : ((dictSet k v d).map Prod.fst).Nodup := by
  induction d with
  | nil => simp [dictSet]
  | cons q es ih =>
    obtain ⟨k', v'⟩ := q
    rw [List.map_cons, List.nodup_cons] at hd
    by_cases hk : k' = k
    · rw [show dictSet k v ((k', v') :: es) = (k, v) :: es from by simp [dictSet, hk]]
      rw [List.map_cons, List.nodup_cons]
      rw [hk] at hd
      exact hd
    · simp only [dictSet, if_neg hk, List.map_cons, List.nodup_cons]
      constructor
      · intro hx
        rcases keys_dictSet k v es with h | h
        · rw [h] at hx
          exact hd.1 hx
        · rw [h] at hx
          rcases List.mem_append.1 hx with h' | h'
          · exact hd.1 h'
          · simp at h'
            exact hk h'
      · exact ih hd.2

theorem nodup_subset_length_le {l l' : List String} (hn : l.Nodup)
    (hs : ∀ x ∈ l, x ∈ l') : l.length ≤ l'.length := by
  calc l.length = l.toFinset.card := (List.toFinset_card_of_nodup hn).symm
    _ ≤ l'.toFinset.card := by
        apply Finset.card_le_card
        intro x hx
        rw [List.mem_toFinset] at hx ⊢
        exact hs x hx
    _ ≤ l'.length := List.toFinset_card_le l'

/-! ### Facts about `get_model` under a well-formed cache -/

theorem validCache_lookup {s : CacheState} {k : String} {m : LoadedModel}
    (hv : validCache s = true) (h : dictGet k s.model_cache = some m) :
    (dictGet k MODELS).map backendType = some m.type := by
  have hm := dictGet_mem h
  have := List.all_eq_true.1 hv _ hm
  simpa using this

theorem validCache_not_cached {s : CacheState} {k : String}
    (hv : validCache s = true) (hk : dictGet k MODELS = none) :
    dictGet k s.model_cache = none := by
  cases h : dictGet k s.model_cache with
  | none => rfl
  | some m =>
    have := validCache_lookup hv h
    rw [hk] at this
    simp at this

theorem get_model_type {s : CacheState} {k : String} {info : ModelInfo}
    (hv : validCache s = true) (hk : dictGet k MODELS = some info) :
    (get_model k s).1.type = backendType info := by
  unfold get_model
  cases h : dictGet k s.model_cache with
  | some m =>
    have := validCache_lookup hv h
    rw [hk] at this
    simp at this
    simp [this]
  | none =>
    simp [hk]

theorem get_model_cases (k : String) (s : CacheState) :
    (∃ m, dictGet k s.model_cache = some m ∧ get_model k s = (m, s))
    ∨ (∃ info, dictGet k s.model_cache = none
        ∧ dictGet (if (dictGet k MODELS).isSome then k else "blip-base") MODELS = some info
        ∧ get_model k s = (⟨backendType info, s.nextId⟩,
            { s with
              model_cache := dictSet (if (dictGet k MODELS).isSome then k else "blip-base")
                               ⟨backendType info, s.nextId⟩ s.model_cache,
              nextId := s.nextId + 1, loads := s.loads + 1 })) := by
  cases h : dictGet k s.model_cache with
  | some m =>
    left
    exact ⟨m, rfl, by simp [get_model, h]⟩
  | none =>
    right
    cases hreg : dictGet k MODELS with
    | some info =>
      refine ⟨info, rfl, by simp [hreg], ?_⟩
      simp [get_model, h, hreg]
    | none =>
      refine ⟨⟨"BLIP Base", "Salesforce/blip-image-captioning-base",
              "Fast and lightweight (500MB)", none, none, none, none⟩, rfl, by simp [hreg]; decide, ?_⟩
      simp [get_model, h, hreg]
      rfl

theorem get_llm_cases (tokOf : String → Option Tokenizer) (k : String) (s : CacheState) :
    (∃ m, dictGet k s.llm_cache = some m ∧ get_llm tokOf (some k) s = (m, s))
    ∨ (∃ info, dictGet k s.llm_cache = none
        ∧ dictGet (if (dictGet k LLM_MODELS).isSome then k else "smollm2-1.7b") LLM_MODELS = some info
        ∧ get_llm tokOf (some k) s = (⟨s.nextId, resolve_pad info (tokOf info.model)⟩,
            { s with
              llm_cache := dictSet (if (dictGet k LLM_MODELS).isSome then k else "smollm2-1.7b")
                             ⟨s.nextId, resolve_pad info (tokOf info.model)⟩ s.llm_cache,
              nextId := s.nextId + 1, llmLoads := s.llmLoads + 1 })) := by
  cases h : dictGet k s.llm_cache with
  | some m =>
    left
    exact ⟨m, rfl, by simp [get_llm, h]⟩
  | none =>
    right
    cases hreg : dictGet k LLM_MODELS with
    | some info =>
      refine ⟨info, rfl, by simp [hreg], ?_⟩
      simp [get_llm, h, hreg]
    | none =>
      refine ⟨⟨"SmolLM2 1.7B Instruct", "HuggingFaceTB/SmolLM2-1.7B-Instruct",
              "Tiny instruct model (fast CPU, ~1.5GB RAM)", some 128000⟩, rfl,
              by simp [hreg]; decide, ?_⟩
      simp [get_llm, h, hreg]
      rfl

/-! ### Claim C6 -/

/-- Claim C6: the prompt-tag resolution maps every mode that is a key of the
descriptor's mode table to that table's tag; every other mode, including an
absent one, to the default mode's tag (the same tag as explicitly requesting
the default mode); and falls back to the hardcoded tag
"<MORE_DETAILED_CAPTION>" when even the default mode's tag is missing. -/
theorem spec_c6_florence_mode_resolution :
    (∀ (m t : String), dictGet m FLORENCE_TAGS = some t →
        florence_prompt_for_mode (some m) = t)
    ∧ (∀ (m : String), dictGet m FLORENCE_TAGS = none →
        florence_prompt_for_mode (some m) = florence_prompt_for_mode (some "more_detailed"))
    ∧ florence_prompt_for_mode none = florence_prompt_for_mode (some "more_detailed")
    ∧ (∀ (tags : List (String × String)) (dm m : String),
        dictGet m tags = none → dictGet dm tags = none →
        florence_prompt_core tags dm (some m) = "<MORE_DETAILED_CAPTION>"
        ∧ florence_prompt_core tags dm none = "<MORE_DETAILED_CAPTION>") := by
  refine ⟨?_, ?_, ?_, ?_⟩
  · intro m t h
    simp [florence_prompt_for_mode, florence_prompt_core, h]
  · intro m h
    simp [florence_prompt_for_mode, florence_prompt_core, h]
    decide
  · rfl
  · intro tags dm m h1 h2
    constructor <;> simp [florence_prompt_core, h1, h2]

/-- Concrete instance of C6: a registered mode maps to its tag, and an unknown
mode resolves to the same tag as the default mode "more_detailed". -/
theorem spec_c6_witness :
    dictGet "ocr" FLORENCE_TAGS = some "<OCR>"
    ∧ florence_prompt_for_mode (some "ocr") = "<OCR>"
    ∧ dictGet "bogus" FLORENCE_TAGS = none
    ∧ florence_prompt_for_mode (some "bogus") = florence_prompt_for_mode (some "more_detailed") :=
  ⟨by decide, spec_c6_florence_mode_resolution.1 "ocr" "<OCR>" (by decide), by decide,
   spec_c6_florence_mode_resolution.2.1 "bogus" (by decide)⟩

/-! ### Claim C9 -/

/-- Claim C9: the `/models` payload lists exactly the registered image and text
model identifiers, once each, in registry order; every image entry carries the
registry's name, description, mode-name list (null when the descriptor has no
modes) and default mode for its key, and every text entry the registry's name
and description. -/
theorem spec_c9_list_models :
    list_models.1.map ModelEntry.key = MODELS.map Prod.fst
    ∧ (list_models.1.map ModelEntry.key).Nodup
    ∧ list_models.2.map LLMEntry.key = LLM_MODELS.map Prod.fst
    ∧ (list_models.2.map LLMEntry.key).Nodup
    ∧ (∀ e ∈ list_models.1,
        (dictGet e.key MODELS).map ModelInfo.name = some e.name
        ∧ (dictGet e.key MODELS).map ModelInfo.description = some e.description
        ∧ (dictGet e.key MODELS).map ModelInfo.default_mode = some e.default_mode
        ∧ (dictGet e.key MODELS).map (fun info =>
            match info.modes with
            | some ms => if ms = [] then none else some (ms.map Prod.fst)
            | none => none) = some e.modes)
    ∧ (∀ e ∈ list_models.2,
        (dictGet e.key LLM_MODELS).map LLMInfo.name = some e.name
        ∧ (dictGet e.key LLM_MODELS).map LLMInfo.description = some e.description)
    ∧ list_models.1.map ModelEntry.modes
        = [none, none, none, some ["caption", "more_detailed", "ocr", "dense", "od"],
           some ["caption", "roast"]]
    ∧ list_models.1.map ModelEntry.default_mode
        = [none, none, none, some "more_detailed", some "caption"] := by
  decide

/-! ### Claim C3 -/

/-- Claim C3 fails as stated: two sequential `get_model` calls with an
identifier that is not a registry key each perform a fresh backend
initialization (the load counter advances twice from the empty state) and
return distinct handles, because the cache membership test uses the requested
key while the entry is stored under the fallback key. -/
theorem spec_c3_counterexample :
    (get_model "unknown-model" initState).2.loads = 1
    ∧ (get_model "unknown-model" ((get_model "unknown-model" initState).2)).2.loads = 2
    ∧ (get_model "unknown-model" ((get_model "unknown-model" initState).2)).1
        ≠ (get_model "unknown-model" initState).1
    ∧ (get_llm (fun _ => none) (some "unknown-llm") initState).2.llmLoads = 1
    ∧ (get_llm (fun _ => none) (some "unknown-llm")
         ((get_llm (fun _ => none) (some "unknown-llm") initState).2)).2.llmLoads = 2 := by
  decide

/-- Claim C3, amended: for every identifier that is a key of the registry, two
sequential `getOrLoad` calls return the same handle and the second call leaves
the state (in particular the load counter) unchanged, for both caches; and
both caches always keep at most one entry per identifier (key lists stay
duplicate-free).  For an unregistered identifier the second call re-initializes
the fallback backend (see the counterexample). -/
theorem spec_c3_amended (k : String) (tokOf : String → Option Tokenizer) (s : CacheState) :
    ((dictGet k MODELS).isSome = true →
      (get_model k (get_model k s).2).1 = (get_model k s).1
      ∧ (get_model k (get_model k s).2).2 = (get_model k s).2
      ∧ (get_model k (get_model k s).2).2.loads = (get_model k s).2.loads)
    ∧ ((dictGet k LLM_MODELS).isSome = true →
      (get_llm tokOf (some k) (get_llm tokOf (some k) s).2).1 = (get_llm tokOf (some k) s).1
      ∧ (get_llm tokOf (some k) (get_llm tokOf (some k) s).2).2 = (get_llm tokOf (some k) s).2
      ∧ (get_llm tokOf (some k) (get_llm tokOf (some k) s).2).2.llmLoads
          = (get_llm tokOf (some k) s).2.llmLoads)
    ∧ ((s.model_cache.map Prod.fst).Nodup →
        ((get_model k s).2.model_cache.map Prod.fst).Nodup)
    ∧ ((s.llm_cache.map Prod.fst).Nodup →
        ((get_llm tokOf (some k) s).2.llm_cache.map Prod.fst).Nodup) := by
  refine ⟨?_, ?_, ?_, ?_⟩
  · intro hk
    rcases get_model_cases k s with ⟨m, hc, heq⟩ | ⟨info, hc, hkey, heq⟩
    · rw [heq]
      rcases get_model_cases k s with ⟨m', hc', heq'⟩ | ⟨info', hc', hkey', heq'⟩
      · rw [heq']
        rw [hc] at hc'
        simp at hc'
        simp [hc']
      · rw [hc] at hc'
        simp at hc'
    · rw [heq]
      have hstored : dictGet k (dictSet (if (dictGet k MODELS).isSome then k else "blip-base")
          (⟨backendType info, s.nextId⟩ : LoadedModel) s.model_cache) = some ⟨backendType info, s.nextId⟩ := by
        rw [if_pos hk]
        exact dictGet_dictSet_self k _ s.model_cache
      simp [get_model, hstored]
  · intro hk
    rcases get_llm_cases tokOf k s with ⟨m, hc, heq⟩ | ⟨info, hc, hkey, heq⟩
    · rw [heq]
      rcases get_llm_cases tokOf k s with ⟨m', hc', heq'⟩ | ⟨info', hc', hkey', heq'⟩
      · rw [heq']
        rw [hc] at hc'
        simp at hc'
        simp [hc']
      · rw [hc] at hc'
        simp at hc'
    · rw [heq]
      have hstored : dictGet k (dictSet (if (dictGet k LLM_MODELS).isSome then k else "smollm2-1.7b")
          (⟨s.nextId, resolve_pad info (tokOf info.model)⟩ : LoadedLLM) s.llm_cache)
          = some ⟨s.nextId, resolve_pad info (tokOf info.model)⟩ := by
        rw [if_pos hk]
        exact dictGet_dictSet_self k _ s.llm_cache
      simp [get_llm, hstored]
  · intro hn
    rcases get_model_cases k s with ⟨m, _, heq⟩ | ⟨info, _, _, heq⟩
    · rw [heq]
      exact hn
    · rw [heq]
      exact nodup_keys_dictSet hn
  · intro hn
    rcases get_llm_cases tokOf k s with ⟨m, _, heq⟩ | ⟨info, _, _, heq⟩
    · rw [heq]
      exact hn
    · rw [heq]
      exact nodup_keys_dictSet hn

/-- Concrete instance of C3 (amended): repeating `get_model "blip-base"` and
`get_llm "phi3-mini"` from the empty state returns the same handles and loads
nothing the second time. -/
theorem spec_c3_witness :
    (dictGet "blip-base" MODELS).isSome = true
    ∧ (get_model "blip-base" (get_model "blip-base" initState).2).1
        = (get_model "blip-base" initState).1
    ∧ (dictGet "phi3-mini" LLM_MODELS).isSome = true
    ∧ (get_llm (fun _ => none) (some "phi3-mini")
         (get_llm (fun _ => none) (some "phi3-mini") initState).2).1
        = (get_llm (fun _ => none) (some "phi3-mini") initState).1
    ∧ ((get_model "blip-base" initState).2.model_cache.map Prod.fst).Nodup :=
  ⟨by decide,
   ((spec_c3_amended "blip-base" (fun _ => none) initState).1 (by decide)).1,
   by decide,
   ((spec_c3_amended "phi3-mini" (fun _ => none) initState).2.1 (by decide)).1,
   (spec_c3_amended "blip-base" (fun _ => none) initState).2.2.1 (by simp [initState])⟩

/-! ### Claim C10 -/

/-- An identifier that is not a registry key is never a cache key, provided
every cache key is registered. -/
theorem uncached_of_unregistered {α β : Type} {cache : List (String × α)}
    {registry : List (String × β)} {k : String}
    (hr : ∀ p ∈ cache, (dictGet p.1 registry).isSome = true)
    (hk : dictGet k registry = none) : dictGet k cache = none := by
  cases hcc : dictGet k cache with
  | none => rfl
  | some m =>
    have := hr _ (dictGet_mem hcc)
    rw [hk] at this
    simp at this

/-- One `get_model` step keeps the image cache's keys duplicate-free and
registered, and an unregistered key is stored under "blip-base" only. -/
theorem model_cache_step (k : String) (s : CacheState)
    (hn : (s.model_cache.map Prod.fst).Nodup)
    (hr : ∀ p ∈ s.model_cache, (dictGet p.1 MODELS).isSome = true) :
    ((get_model k s).2.model_cache.map Prod.fst).Nodup
    ∧ (∀ p ∈ (get_model k s).2.model_cache, (dictGet p.1 MODELS).isSome = true)
    ∧ (dictGet k MODELS = none →
        dictGet k (get_model k s).2.model_cache = none
        ∧ dictGet "blip-base" (get_model k s).2.model_cache = some (get_model k s).1) := by
  rcases get_model_cases k s with ⟨m, hc, heq⟩ | ⟨info, hc, hkey, heq⟩
  · rw [heq]
    refine ⟨hn, hr, ?_⟩
    intro hk
    have := uncached_of_unregistered hr hk
    rw [hc] at this
    simp at this
  · rw [heq]
    refine ⟨nodup_keys_dictSet hn, ?_, ?_⟩
    · intro p hp
      rcases mem_dictSet hp with hp' | hp'
      · exact hr p hp'
      · rw [hp']
        simpa using congrArg Option.isSome hkey
    · intro hk
      have hif : (if (dictGet k MODELS).isSome then k else "blip-base") = "blip-base" := by
        rw [hk]
        rfl
      rw [hif]
      constructor
      · have hkne : k ≠ "blip-base" := by
          intro he
          rw [he] at hk
          simp [dictGet, MODELS] at hk
        rw [dictGet_dictSet_ne hkne]
        exact uncached_of_unregistered hr hk
      · exact dictGet_dictSet_self "blip-base" _ s.model_cache

/-- One `get_llm` step keeps the text cache's keys duplicate-free and
registered, and an unregistered key is stored under "smollm2-1.7b" only. -/
theorem llm_cache_step (tokOf : String → Option Tokenizer) (k : String) (s : CacheState)
    (hn : (s.llm_cache.map Prod.fst).Nodup)
    (hr : ∀ p ∈ s.llm_cache, (dictGet p.1 LLM_MODELS).isSome = true) :
    ((get_llm tokOf (some k) s).2.llm_cache.map Prod.fst).Nodup
    ∧ (∀ p ∈ (get_llm tokOf (some k) s).2.llm_cache, (dictGet p.1 LLM_MODELS).isSome = true)
    ∧ (dictGet k LLM_MODELS = none →
        dictGet k (get_llm tokOf (some k) s).2.llm_cache = none
        ∧ dictGet "smollm2-1.7b" (get_llm tokOf (some k) s).2.llm_cache
            = some (get_llm tokOf (some k) s).1) := by
  rcases get_llm_cases tokOf k s with ⟨m, hc, heq⟩ | ⟨info, hc, hkey, heq⟩
  · rw [heq]
    refine ⟨hn, hr, ?_⟩
    intro hk
    have := uncached_of_unregistered hr hk
    rw [hc] at this
    simp at this
  · rw [heq]
    refine ⟨nodup_keys_dictSet hn, ?_, ?_⟩
    · intro p hp
      rcases mem_dictSet hp with hp' | hp'
      · exact hr p hp'
      · rw [hp']
        simpa using congrArg Option.isSome hkey
    · intro hk
      have hif : (if (dictGet k LLM_MODELS).isSome then k else "smollm2-1.7b") = "smollm2-1.7b" := by
        rw [hk]
        rfl
      rw [hif]
      constructor
      · have hkne : k ≠ "smollm2-1.7b" := by
          intro he
          rw [he] at hk
          simp [dictGet, LLM_MODELS] at hk
        rw [dictGet_dictSet_ne hkne]
        exact uncached_of_unregistered hr hk
      · exact dictGet_dictSet_self "smollm2-1.7b" _ s.llm_cache

/-- Well-formedness of the two caches: duplicate-free key lists, every key a
registry key.  Holds of the empty initial state and is preserved by every
operation. -/
def cacheWF (s : CacheState) : Prop :=
  (s.model_cache.map Prod.fst).Nodup
  ∧ (∀ p ∈ s.model_cache, (dictGet p.1 MODELS).isSome = true)
  ∧ (s.llm_cache.map Prod.fst).Nodup
  ∧ (∀ p ∈ s.llm_cache, (dictGet p.1 LLM_MODELS).isSome = true)

/-- Claim C10: `getOrLoad` keeps each cache's key set inside its registry's key
set; a call with an unregistered identifier stores the loaded backend under the
hardcoded fallback key ("blip-base" for image models, "smollm2-1.7b" for text
models), never under the unregistered identifier; hence each cache never holds
more entries than its registry. -/
theorem spec_c10_cache_keys_registered (k k2 : String) (tokOf : String → Option Tokenizer)
    (s : CacheState) (h : cacheWF s) :
    cacheWF (get_model k s).2
    ∧ cacheWF (get_llm tokOf (some k2) s).2
    ∧ (dictGet k MODELS = none →
        dictGet k (get_model k s).2.model_cache = none
        ∧ dictGet "blip-base" (get_model k s).2.model_cache = some (get_model k s).1)
    ∧ (dictGet k2 LLM_MODELS = none →
        dictGet k2 (get_llm tokOf (some k2) s).2.llm_cache = none
        ∧ dictGet "smollm2-1.7b" (get_llm tokOf (some k2) s).2.llm_cache
            = some (get_llm tokOf (some k2) s).1)
    ∧ (get_model k s).2.model_cache.length ≤ MODELS.length
    ∧ (get_llm tokOf (some k2) s).2.llm_cache.length ≤ LLM_MODELS.length := by
  obtain ⟨hn1, hr1, hn2, hr2⟩ := h
  obtain ⟨ha1, ha2, ha3⟩ := model_cache_step k s hn1 hr1
  obtain ⟨hb1, hb2, hb3⟩ := llm_cache_step tokOf k2 s hn2 hr2
  have hllm_unchanged : (get_model k s).2.llm_cache = s.llm_cache := by
    rcases get_model_cases k s with ⟨m, _, heq⟩ | ⟨info, _, _, heq⟩ <;> rw [heq]
  have hmodel_unchanged : (get_llm tokOf (some k2) s).2.model_cache = s.model_cache := by
    rcases get_llm_cases tokOf k2 s with ⟨m, _, heq⟩ | ⟨info, _, _, heq⟩ <;> rw [heq]
  refine ⟨⟨ha1, ha2, ?_, ?_⟩, ⟨?_, ?_, hb1, hb2⟩, ha3, hb3, ?_, ?_⟩
  · rw [hllm_unchanged]
    exact hn2
  · rw [hllm_unchanged]
    exact hr2
  · rw [hmodel_unchanged]
    exact hn1
  · rw [hmodel_unchanged]
    exact hr1
  · have hsub : ∀ x ∈ (get_model k s).2.model_cache.map Prod.fst, x ∈ MODELS.map Prod.fst := by
      intro x hx
      rcases List.mem_map.1 hx with ⟨p, hp, hpx⟩
      have h2 := ha2 p hp
      rcases Option.isSome_iff_exists.1 h2 with ⟨info, hinfo⟩
      rw [hpx] at hinfo
      exact List.mem_map.2 ⟨(x, info), dictGet_mem hinfo, rfl⟩
    simpa using nodup_subset_length_le ha1 hsub
  · have hsub : ∀ x ∈ (get_llm tokOf (some k2) s).2.llm_cache.map Prod.fst,
        x ∈ LLM_MODELS.map Prod.fst := by
      intro x hx
      rcases List.mem_map.1 hx with ⟨p, hp, hpx⟩
      have h2 := hb2 p hp
      rcases Option.isSome_iff_exists.1 h2 with ⟨info, hinfo⟩
      rw [hpx] at hinfo
      exact List.mem_map.2 ⟨(x, info), dictGet_mem hinfo, rfl⟩
    simpa using nodup_subset_length_le hb1 hsub

/-- Concrete instance of C10: from the empty state, loading the unregistered
identifiers "nope" and "nah" stores only the fallback keys. -/
theorem spec_c10_witness :
    cacheWF initState
    ∧ dictGet "nope" (get_model "nope" initState).2.model_cache = none
    ∧ dictGet "blip-base" (get_model "nope" initState).2.model_cache
        = some (get_model "nope" initState).1
    ∧ dictGet "nah" (get_llm (fun _ => none) (some "nah") initState).2.llm_cache = none
    ∧ (get_model "nope" initState).2.model_cache.length ≤ MODELS.length := by
  have hwf : cacheWF initState := by
    refine ⟨by simp [initState], by simp [initState], by simp [initState], by simp [initState]⟩
  have h := spec_c10_cache_keys_registered "nope" "nah" (fun _ => none) initState hwf
  exact ⟨hwf, (h.2.2.1 (by decide)).1, (h.2.2.1 (by decide)).2, (h.2.2.2.1 (by decide)).1,
         h.2.2.2.2.1⟩


/-! ### Request parsing and branch-selection lemmas for `/caption` -/

theorem mkCaptionReq_files (fname : String) (model? q? m? : Option String) :
    dictGet "image" (mkCaptionReq fname model? q? m?).files = some fname := by
  simp [mkCaptionReq, dictGet]

theorem mkCaptionReq_model (fname v : String) (q? m? : Option String) :
    dictGet "model" (mkCaptionReq fname (some v) q? m?).form = some v := by
  simp [mkCaptionReq, dictGet]

theorem mkCaptionReq_model_absent (fname : String) (q? m? : Option String) :
    dictGet "model" (mkCaptionReq fname none q? m?).form = none := by
  cases q? <;> cases m? <;> simp [mkCaptionReq, dictGet]

theorem mkCaptionReq_question (fname q : String) (model? m? : Option String) :
    dictGet "question" (mkCaptionReq fname model? (some q) m?).form = some q := by
  cases model? <;> simp [mkCaptionReq, dictGet]

theorem mkCaptionReq_mode (fname : String) (model? q? m? : Option String) :
    dictGet "mode" (mkCaptionReq fname model? q? m?).form = m? := by
  cases model? <;> cases q? <;> cases m? <;> simp [mkCaptionReq, dictGet]

theorem get_model_type_florence (s : CacheState) (hv : validCache s = true) :
    (get_model "florence-2" s).1.type = "florence" := by
  have hk : dictGet "florence-2" MODELS = some ⟨"Florence-2 Base", "microsoft/Florence-2-base",
      "High-quality captions (custom loader, ~1.5GB)", some "florence", none,
      some "more_detailed",
      some [("caption", "<CAPTION>"), ("more_detailed", "<MORE_DETAILED_CAPTION>"),
            ("ocr", "<OCR>"), ("dense", "<DENSE_CAPTION>"), ("od", "<OD>")]⟩ := by decide
  rw [get_model_type hv hk]
  decide

theorem get_model_type_moondream (s : CacheState) (hv : validCache s = true) :
    (get_model "moondream-2" s).1.type = "moondream" := by
  have hk : dictGet "moondream-2" MODELS = some ⟨"Moondream2", "vikhyatk/moondream2",
      "Lightweight VLM (fast CPU, ~1-2GB RAM)", some "moondream", some "2025-06-21",
      some "caption", some [("caption", "caption"), ("roast", "roast")]⟩ := by decide
  rw [get_model_type hv hk]
  decide

theorem get_model_type_blip (s : CacheState) (hv : validCache s = true) :
    (get_model "blip-base" s).1.type = "pipeline" := by
  have hk : dictGet "blip-base" MODELS = some ⟨"BLIP Base", "Salesforce/blip-image-captioning-base",
      "Fast and lightweight (500MB)", none, none, none, none⟩ := by decide
  rw [get_model_type hv hk]
  decide

theorem get_model_type_unregistered (s : CacheState) (k : String)
    (hv : validCache s = true) (hk : dictGet k MODELS = none) :
    (get_model k s).1.type = "pipeline" := by
  have h1 : dictGet k s.model_cache = none := validCache_not_cached hv hk
  have hb : dictGet "blip-base" MODELS = some ⟨"BLIP Base", "Salesforce/blip-image-captioning-base",
      "Fast and lightweight (500MB)", none, none, none, none⟩ := by decide
  simp [get_model, h1, hk, hb, backendType]

/-- The pipeline branch of `caption_image`: whenever the resolved model's
cached type tag is "pipeline", the response is the generic captioner's first
generated text. -/
theorem caption_pipeline_branch (env : CaptionEnv) (req : CaptionRequest) (s : CacheState)
    (fname : String) (himg : dictGet "image" req.files = some fname) (hf : ¬ fname = "")
    (htype : (get_model ((dictGet "model" req.form).getD "florence-2") s).1.type = "pipeline") :
    caption_image env req s = (Response.ok (some env.pipeline_generated),
      (get_model ((dictGet "model" req.form).getD "florence-2") s).2) := by
  simp [caption_image, himg, hf, htype]

/-- The Florence branch of `caption_image`: the response is the question block
(empty when no question) followed by the tag-stripped decoded caption. -/
theorem caption_florence_branch (env : CaptionEnv) (req : CaptionRequest) (s : CacheState)
    (fname : String) (himg : dictGet "image" req.files = some fname) (hf : ¬ fname = "")
    (htype : (get_model ((dictGet "model" req.form).getD "florence-2") s).1.type = "florence") :
    caption_image env req s =
      (Response.ok (some
        ((if (dictGet "question" req.form).getD "" = "" then ""
          else "Question: " ++ (dictGet "question" req.form).getD "" ++ "\nAnswer: ")
         ++ stripTag (florence_prompt_for_mode (dictGet "mode" req.form))
              (env.florence_decode (florence_prompt_for_mode (dictGet "mode" req.form))))),
       (get_model ((dictGet "model" req.form).getD "florence-2") s).2) := by
  simp [caption_image, himg, hf, htype]

/-! ### Claim C8 -/

/-- Claim C8: `/caption` returns 400 "No image provided" when the multipart
form has no image file field, and 400 "No image selected" when the image
field's filename is empty; the state is returned unchanged, so no model
loading or inference occurs. -/
theorem spec_c8_caption_rejects (env : CaptionEnv) (req : CaptionRequest) (s : CacheState) :
    (dictGet "image" req.files = none →
      caption_image env req s = (Response.err 400 "No image provided", s))
    ∧ (dictGet "image" req.files = some "" →
      caption_image env req s = (Response.err 400 "No image selected", s)) := by
  constructor
  · intro h
    simp [caption_image, h]
  · intro h
    simp [caption_image, h]

/-- Concrete instance of C8: a request with no files at all, and a request
whose image filename is empty. -/
theorem spec_c8_witness :
    caption_image ⟨fun _ => "", fun _ => MDResult.raw "", MDResult.raw "", ""⟩
        ⟨[], []⟩ initState = (Response.err 400 "No image provided", initState)
    ∧ caption_image ⟨fun _ => "", fun _ => MDResult.raw "", MDResult.raw "", ""⟩
        ⟨[("image", "")], []⟩ initState = (Response.err 400 "No image selected", initState) :=
  ⟨(spec_c8_caption_rejects ⟨fun _ => "", fun _ => MDResult.raw "", MDResult.raw "", ""⟩
      ⟨[], []⟩ initState).1 (by decide),
   (spec_c8_caption_rejects ⟨fun _ => "", fun _ => MDResult.raw "", MDResult.raw "", ""⟩
      ⟨[("image", "")], []⟩ initState).2 (by decide)⟩

/-! ### Claim C1 -/

/-- Environment for the C1 counterexample: for the uploaded image, the generic
pipeline captioner would return "PIPE" and the Florence backend "FLOR". -/
def envC1 : CaptionEnv :=
  ⟨fun _ => "FLOR", fun _ => MDResult.raw "", MDResult.raw "", "PIPE"⟩

set_option maxRecDepth 4000 in
/-- Claim C1 fails as stated: a `/caption` request with the unknown model
identifier "not-a-model" is answered by the generic pipeline backend (the
"blip-base" fallback of `get_model`), while the same request with the model
field omitted is answered by the Florence backend (the handler default
"florence-2"); the two responses differ. -/
theorem spec_c1_counterexample :
    (caption_image envC1 (mkCaptionReq "a.jpg" (some "not-a-model") none none) initState).1
      = Response.ok (some "PIPE")
    ∧ (caption_image envC1 (mkCaptionReq "a.jpg" none none none) initState).1
      = Response.ok (some "FLOR")
    ∧ (caption_image envC1 (mkCaptionReq "a.jpg" (some "not-a-model") none none) initState).1
      ≠ (caption_image envC1 (mkCaptionReq "a.jpg" none none none) initState).1 := by
  decide

/-- Claim C1, amended: an unknown image-model identifier falls back to the
hardcoded `get_model` default "blip-base", not to the `/caption` handler's
omitted-field default "florence-2": for every cache state whose entries carry
their registry types, the response for an unknown identifier equals the
response for the same request with model "blip-base", namely the generic
pipeline's caption.  (For text models the `get_llm` fallback "smollm2-1.7b"
happens to coincide with the `/generate` omitted-field default.) -/
theorem spec_c1_amended (env : CaptionEnv) (s : CacheState) (fname k : String)
    (q? m? : Option String) (hv : validCache s = true) (hf : ¬ fname = "")
    (hk : dictGet k MODELS = none) :
    (caption_image env (mkCaptionReq fname (some k) q? m?) s).1
      = (caption_image env (mkCaptionReq fname (some "blip-base") q? m?) s).1
    ∧ (caption_image env (mkCaptionReq fname (some k) q? m?) s).1
      = Response.ok (some env.pipeline_generated) := by
  have h1 : caption_image env (mkCaptionReq fname (some k) q? m?) s
      = (Response.ok (some env.pipeline_generated),
         (get_model ((dictGet "model" (mkCaptionReq fname (some k) q? m?).form).getD "florence-2") s).2) := by
    apply caption_pipeline_branch env _ s fname (mkCaptionReq_files fname _ q? m?) hf
    rw [mkCaptionReq_model]
    exact get_model_type_unregistered s k hv hk
  have h2 : caption_image env (mkCaptionReq fname (some "blip-base") q? m?) s
      = (Response.ok (some env.pipeline_generated),
         (get_model ((dictGet "model" (mkCaptionReq fname (some "blip-base") q? m?).form).getD "florence-2") s).2) := by
    apply caption_pipeline_branch env _ s fname (mkCaptionReq_files fname _ q? m?) hf
    rw [mkCaptionReq_model]
    exact get_model_type_blip s hv
  rw [h1, h2]
  exact ⟨rfl, rfl⟩

/-- Concrete instance of C1 (amended): the unknown identifier "zzz" and
"blip-base" give the same response. -/
theorem spec_c1_witness :
    (caption_image envC1 (mkCaptionReq "a.jpg" (some "zzz") none none) initState).1
      = (caption_image envC1 (mkCaptionReq "a.jpg" (some "blip-base") none none) initState).1 :=
  (spec_c1_amended envC1 initState "a.jpg" "zzz" none none (by decide) (by decide) (by decide)).1

/-! ### Claim C4 -/

/-- Environment for the C4 counterexample: the Florence backend decodes to the
prompt tag followed by " a dog" (a space after the tag, as decoded output
typically has). -/
def envC4 : CaptionEnv :=
  ⟨fun p => p ++ " a dog", fun _ => MDResult.raw "", MDResult.raw "", ""⟩

set_option maxRecDepth 4000 in
/-- Claim C4 fails as stated: with question "what" and decoded output
`tag ++ " a dog"`, the code returns "Question: what\nAnswer: a dog" — the
caption is whitespace-trimmed after the tag is removed — while the claim
predicts the un-trimmed "Question: what\nAnswer:  a dog". -/
theorem spec_c4_counterexample :
    (caption_image envC4 (mkCaptionReq "a.jpg" (some "florence-2") (some "what") none) initState).1
      = Response.ok (some ("Question: what\nAnswer: " ++ "a dog"))
    ∧ Response.ok (some ("Question: what\nAnswer: " ++ "a dog"))
      ≠ Response.ok (some ("Question: what\nAnswer: " ++ " a dog")) := by
  decide

/-- Claim C4, amended: for every mode and every non-empty question, the
Florence response is "Question: {question}\nAnswer: " followed by the decoded
caption with the prompt tag stripped from its front AND surrounding whitespace
trimmed when the tag was a prefix (the decoded caption unchanged otherwise). -/
theorem spec_c4_amended (env : CaptionEnv) (s : CacheState) (fname q : String)
    (m? : Option String) (hv : validCache s = true) (hf : ¬ fname = "") (hq : ¬ q = "") :
    (caption_image env (mkCaptionReq fname (some "florence-2") (some q) m?) s).1
      = Response.ok (some ("Question: " ++ q ++ "\nAnswer: "
          ++ stripTag (florence_prompt_for_mode m?)
               (env.florence_decode (florence_prompt_for_mode m?)))) := by
  have h1 : caption_image env (mkCaptionReq fname (some "florence-2") (some q) m?) s
      = (Response.ok (some
          ((if (dictGet "question" (mkCaptionReq fname (some "florence-2") (some q) m?).form).getD "" = "" then ""
            else "Question: " ++ (dictGet "question" (mkCaptionReq fname (some "florence-2") (some q) m?).form).getD "" ++ "\nAnswer: ")
           ++ stripTag (florence_prompt_for_mode (dictGet "mode" (mkCaptionReq fname (some "florence-2") (some q) m?).form))
                (env.florence_decode (florence_prompt_for_mode (dictGet "mode" (mkCaptionReq fname (some "florence-2") (some q) m?).form))))),
         (get_model ((dictGet "model" (mkCaptionReq fname (some "florence-2") (some q) m?).form).getD "florence-2") s).2) := by
    apply caption_florence_branch env _ s fname (mkCaptionReq_files fname _ _ _) hf
    rw [mkCaptionReq_model]
    exact get_model_type_florence s hv
  rw [h1, mkCaptionReq_question, mkCaptionReq_mode]
  simp [hq]

/-- Concrete instance of C4 (amended), with an unknown mode (resolving to the
default tag) and decoded output that does not carry the tag prefix. -/
theorem spec_c4_witness :
    (caption_image ⟨fun _ => "a cat", fun _ => MDResult.raw "", MDResult.raw "", ""⟩
        (mkCaptionReq "a.jpg" (some "florence-2") (some "what") (some "bogus")) initState).1
      = Response.ok (some ("Question: what\nAnswer: " ++ "a cat")) := by
  have h := spec_c4_amended ⟨fun _ => "a cat", fun _ => MDResult.raw "", MDResult.raw "", ""⟩
      initState "a.jpg" "what" (some "bogus") (by decide) (by decide) (by decide)
  rw [h]
  decide

/-! ### Claim C7 -/

/-- The moondream branch of `caption_image`, with the mode/prompt resolution
spelled out over the request's parsed fields. -/
theorem caption_moondream_branch (env : CaptionEnv) (req : CaptionRequest) (s : CacheState)
    (fname : String) (himg : dictGet "image" req.files = some fname) (hf : ¬ fname = "")
    (htype : (get_model ((dictGet "model" req.form).getD "florence-2") s).1.type = "moondream") :
    caption_image env req s =
      (if (match dictGet "mode" req.form with
           | some m => if m = "" then ((dictGet ((dictGet "model" req.form).getD "florence-2")
                         MODELS).bind ModelInfo.default_mode).getD "caption" else m
           | none => ((dictGet ((dictGet "model" req.form).getD "florence-2")
                         MODELS).bind ModelInfo.default_mode).getD "caption") = "roast"
       then (Response.ok (mdExtract "answer" (env.moondream_query
              (match (if (dictGet "question" req.form).getD "" = "" then none
                      else some (pyStrip ((dictGet "question" req.form).getD ""))) with
               | some t => if t = "" then "Roast this image in one short, witty sentence." else t
               | none => "Roast this image in one short, witty sentence."))),
             (get_model ((dictGet "model" req.form).getD "florence-2") s).2)
       else (Response.ok (mdExtract "caption" env.moondream_caption),
             (get_model ((dictGet "model" req.form).getD "florence-2") s).2)) := by
  simp [caption_image, himg, hf, htype]

/-- Python's `prompt or fallback` over `question.strip() if question else None`
collapses to: the stripped question when non-empty, else the fallback. -/
theorem roast_prompt_eq (q : String) :
    (match (if q = "" then none else some (pyStrip q) : Option String) with
      | some t => if t = "" then "Roast this image in one short, witty sentence." else t
      | none => "Roast this image in one short, witty sentence.")
    = if pyStrip q = "" then "Roast this image in one short, witty sentence."
      else pyStrip q := by
  by_cases hq : q = ""
  · subst hq
    decide
  · simp [hq]

/-- Environment for the C7 counterexample: the moondream query result records
the prompt it was invoked with. -/
def envC7 : CaptionEnv :=
  ⟨fun _ => "", fun p => MDResult.raw ("Q:" ++ p), MDResult.raw "cap", ""⟩

set_option maxRecDepth 4000 in
/-- Claim C7 fails as stated: in roast mode with the supplied question " hi "
(non-empty), the query prompt is the whitespace-stripped "hi", not the
supplied question itself. -/
theorem spec_c7_counterexample :
    (caption_image envC7
        (mkCaptionReq "a.jpg" (some "moondream-2") (some " hi ") (some "roast")) initState).1
      = Response.ok (some "Q:hi")
    ∧ Response.ok (some ("Q:" ++ "hi")) ≠ Response.ok (some ("Q:" ++ " hi ")) := by
  decide

/-- Claim C7, amended: the effective mode is the supplied mode when non-empty,
else the descriptor's default mode "caption"; in roast mode the query prompt
is the whitespace-STRIPPED supplied question when non-empty after stripping,
else the hardcoded fallback "Roast this image in one short, witty sentence.",
a query-style call is made with that prompt and its answer field extracted
when the result is a dict (else the raw result stringified); in any other
effective mode a caption-style call is made with only the image and its
caption field extracted when the result is a dict (else stringified). -/
theorem spec_c7_amended (env : CaptionEnv) (s : CacheState) (fname q : String)
    (m? : Option String) (hv : validCache s = true) (hf : ¬ fname = "") :
    ((match m? with
      | some m => if m = "" then "caption" else m
      | none => "caption") = "roast" →
      (caption_image env (mkCaptionReq fname (some "moondream-2") (some q) m?) s).1
        = Response.ok (mdExtract "answer" (env.moondream_query
            (if pyStrip q = "" then "Roast this image in one short, witty sentence."
             else pyStrip q))))
    ∧ (¬ (match m? with
      | some m => if m = "" then "caption" else m
      | none => "caption") = "roast" →
      (caption_image env (mkCaptionReq fname (some "moondream-2") (some q) m?) s).1
        = Response.ok (mdExtract "caption" env.moondream_caption)) := by
  have hm := mkCaptionReq_model fname "moondream-2" (some q) m?
  have htype : (get_model ((dictGet "model"
      (mkCaptionReq fname (some "moondream-2") (some q) m?).form).getD "florence-2") s).1.type
      = "moondream" := by
    rw [hm]
    exact get_model_type_moondream s hv
  have hbr := caption_moondream_branch env _ s fname
    (mkCaptionReq_files fname (some "moondream-2") (some q) m?) hf htype
  rw [mkCaptionReq_mode, mkCaptionReq_question, hm] at hbr
  have hdef : ((dictGet ((some "moondream-2").getD "florence-2") MODELS).bind
      ModelInfo.default_mode).getD "caption" = "caption" := by decide
  rw [hdef] at hbr
  constructor
  · intro hroast
    rw [hbr, if_pos hroast]
    simp only [Option.getD_some]
    rw [roast_prompt_eq q]
  · intro hroast
    rw [hbr, if_neg hroast]

/-- Concrete instance of C7 (amended): roast mode extracts the answer of a
query with the stripped question; default mode extracts the caption. -/
theorem spec_c7_witness :
    (caption_image envC7
        (mkCaptionReq "a.jpg" (some "moondream-2") (some "hi") (some "roast")) initState).1
      = Response.ok (mdExtract "answer" (envC7.moondream_query "hi"))
    ∧ (caption_image envC7
        (mkCaptionReq "a.jpg" (some "moondream-2") (some "hi") none) initState).1
      = Response.ok (mdExtract "caption" envC7.moondream_caption) := by
  constructor
  · have h := (spec_c7_amended envC7 initState "a.jpg" "hi" (some "roast")
      (by decide) (by decide)).1 (by decide)
    rw [h]
    decide
  · exact (spec_c7_amended envC7 initState "a.jpg" "hi" none
      (by decide) (by decide)).2 (by decide)

/-! ### Claim C2 -/

/-- Every string starts with the empty prompt. -/
theorem pyStartsWith_empty (s : String) : pyStartsWith s "" = true := by
  have h : ("" : String).data = [] := rfl
  unfold pyStartsWith
  rw [h]
  exact List.isPrefixOf_nil_left

/-- Dropping zero characters is the identity. -/
theorem pyDrop_zero (s : String) : pyDrop s 0 = s := by
  unfold pyDrop
  rw [List.drop_zero]

/-- Environment for the C2 counterexample. -/
def envC2 : GenEnv := ⟨fun _ => none, fun _ _ _ _ => "OUT"⟩

/-- Claim C2 fails as stated for invalid fields: a `/generate` body whose
`max_new_tokens` value cannot be converted by `int(...)` makes the handler
raise and answer HTTP 500 — the request fails instead of proceeding with the
default 256. -/
theorem spec_c2_counterexample :
    generate_text envC2 (some [("prompt", JVal.jstr "Hello"),
        ("max_new_tokens", JVal.jstr "many")]) initState
      = (GenResponse.err 500 "Error generating text", initState)
    ∧ (GenResponse.err 500 "Error generating text" : GenResponse)
      ≠ GenResponse.ok "OUT" (JVal.jstr "Hello") := by
  decide

/-- Claim C2, amended: fields MISSING from the JSON body (or a missing or
non-JSON body as a whole) are replaced by the defaults prompt = "",
model = "smollm2-1.7b", max_new_tokens = 256, temperature = 0.7, and the
request proceeds with those values; but a field that is present with a value
the `int()`/`float()` conversion rejects makes the request fail with HTTP 500
(see the counterexample). -/
theorem spec_c2_amended (env : GenEnv) (s : CacheState) :
    generate_text env none s
      = (GenResponse.ok
           (env.pipeOut "" 256 (7 / 10)
             (get_llm env.tokOf (some "smollm2-1.7b") s).1.pad_token_id)
           (JVal.jstr "smollm2-1.7b"),
         (get_llm env.tokOf (some "smollm2-1.7b") s).2)
    ∧ generate_text env (some []) s = generate_text env none s
    ∧ (∀ p : String, (generate_text env (some [("prompt", JVal.jstr p)]) s).1
        = GenResponse.ok
            (if pyStartsWith (env.pipeOut p 256 (7 / 10)
                  (get_llm env.tokOf (some "smollm2-1.7b") s).1.pad_token_id) p
             then pyDrop (env.pipeOut p 256 (7 / 10)
                  (get_llm env.tokOf (some "smollm2-1.7b") s).1.pad_token_id) p.length
             else env.pipeOut p 256 (7 / 10)
                  (get_llm env.tokOf (some "smollm2-1.7b") s).1.pad_token_id)
            (JVal.jstr "smollm2-1.7b")) := by
  have hr : ratTrunc 256 = 256 := by decide
  refine ⟨?_, ?_, ?_⟩
  · unfold generate_text
    simp [dictGet, pyInt, pyFloat, hr, pyStartsWith_empty, pyDrop_zero]
  · rfl
  · intro p
    unfold generate_text
    simp [dictGet, pyInt, pyFloat, hr]

/-! ### Claim C5 -/

/-- Claim C5: for every `/generate` request (any prompt, model and numeric
fields), if the backend's generated text begins with the exact prompt string
the returned text is the generated text with that prefix removed, and
otherwise the full generated text unchanged. -/
theorem spec_c5_prompt_echo_stripped (env : GenEnv) (s : CacheState)
    (p mk : String) (a b : Rat) :
    (pyStartsWith (env.pipeOut p (ratTrunc a) b
        (get_llm env.tokOf (some mk) s).1.pad_token_id) p = true →
      (generate_text env (some [("prompt", JVal.jstr p), ("model", JVal.jstr mk),
          ("max_new_tokens", JVal.jnum a), ("temperature", JVal.jnum b)]) s).1
        = GenResponse.ok
            (pyDrop (env.pipeOut p (ratTrunc a) b
              (get_llm env.tokOf (some mk) s).1.pad_token_id) p.length)
            (JVal.jstr mk))
    ∧ (pyStartsWith (env.pipeOut p (ratTrunc a) b
        (get_llm env.tokOf (some mk) s).1.pad_token_id) p = false →
      (generate_text env (some [("prompt", JVal.jstr p), ("model", JVal.jstr mk),
          ("max_new_tokens", JVal.jnum a), ("temperature", JVal.jnum b)]) s).1
        = GenResponse.ok
            (env.pipeOut p (ratTrunc a) b (get_llm env.tokOf (some mk) s).1.pad_token_id)
            (JVal.jstr mk)) := by
  constructor
  · intro h
    simp [generate_text, dictGet, pyInt, pyFloat, h]
  · intro h
    simp [generate_text, dictGet, pyInt, pyFloat, h]

/-- Concrete instance of C5: prompt "Hello" with raw output "Hello world"
yields " world"; prompt "Hello" with raw output "XYZ" (no prefix) yields
"XYZ" unchanged. -/
theorem spec_c5_witness :
    (generate_text ⟨fun _ => none, fun _ _ _ _ => "Hello world"⟩
        (some [("prompt", JVal.jstr "Hello"), ("model", JVal.jstr "m"),
               ("max_new_tokens", JVal.jnum 10), ("temperature", JVal.jnum 1)]) initState).1
      = GenResponse.ok " world" (JVal.jstr "m")
    ∧ (generate_text ⟨fun _ => none, fun _ _ _ _ => "XYZ"⟩
        (some [("prompt", JVal.jstr "Hello"), ("model", JVal.jstr "m"),
               ("max_new_tokens", JVal.jnum 10), ("temperature", JVal.jnum 1)]) initState).1
      = GenResponse.ok "XYZ" (JVal.jstr "m") := by
  constructor
  · have h := (spec_c5_prompt_echo_stripped ⟨fun _ => none, fun _ _ _ _ => "Hello world"⟩
        initState "Hello" "m" 10 1).1 (by decide)
    rw [h]
    decide
  · exact (spec_c5_prompt_echo_stripped ⟨fun _ => none, fun _ _ _ _ => "XYZ"⟩
        initState "Hello" "m" 10 1).2 (by decide)

end Server
